import Mathlib

/-!
Verification of the socket event loop core of `packages/bun-usockets/src/loop.c`
against its natural-language specification.

The C code is shallowly embedded: stateful C functions become Lean functions
with explicit state passing, machine integers become `Nat` with explicit
`% 2 ^ 32` where wrap-around matters, and the observable effects of a dispatch
(callback invocations, poll-mask changes, closes) are recorded as event traces.
Callbacks are parameters, so theorems quantify over all user callback behaviour
that the model admits.
-/

namespace USockets

/-- Modelled from the spec: `LIBUS_RECV_BUFFER_LENGTH` is defined in
`libusockets.h`, which is not part of the extracted sources; the spec gives
the typical receive-buffer capacity R = 512 KiB. -/
def LIBUS_RECV_BUFFER_LENGTH : Nat := 524288

/-- Modelled from the spec: the poll-event bit for readability
(`LIBUS_SOCKET_READABLE`, defined in `internal.h`, outside the extracted
sources); the spec only requires READABLE and WRITABLE to be distinct bits of
the interest mask. -/
def LIBUS_SOCKET_READABLE : Nat := 1

/-- Modelled from the spec: the poll-event bit for writability
(`LIBUS_SOCKET_WRITABLE`). -/
def LIBUS_SOCKET_WRITABLE : Nat := 2

/-- `static const int MAX_LOW_PRIO_SOCKETS_PER_LOOP_ITERATION = 5;`
(loop.c line 168). -/
def MAX_LOW_PRIO_SOCKETS_PER_LOOP_ITERATION : Nat := 5

/-- `#define LOOP_ISNT_VERY_BUSY_THRESHOLD 25` (loop.c line 461). -/
def LOOP_ISNT_VERY_BUSY_THRESHOLD : Nat := 25

/-! ## Cross-thread DNS hand-off (loop.c lines 189-224)

A connecting socket carries resolver state.  The loop's `dns_ready_head` is a
singly linked list through the sockets' `next` pointers; we embed it as a Lean
list, head first. -/

/-- A `us_connecting_socket_t` as far as the DNS hand-off uses it: an identity
and the `addrinfo_req` slot the callback fills in. -/
structure ConnectingSocket where
  id : Nat
  addrinfo_req : Option Nat
deriving DecidableEq, Repr

/-- `us_internal_dns_callback` (loop.c lines 191-198): under the loop mutex,
store the result in `c->addrinfo_req` and push `c` onto the head of
`loop->data.dns_ready_head`.  The mutex only excludes other threads; on the
single loop thread the update is this pure list push. -/
def us_internal_dns_callback (c : ConnectingSocket) (addrinfo_req : Nat)
    (dns_ready_head : List ConnectingSocket) : List ConnectingSocket :=
  { c with addrinfo_req := some addrinfo_req } :: dns_ready_head

/-- `us_internal_dns_callback_threadsafe` (loop.c lines 203-207): performs the
same push as `us_internal_dns_callback` and then wakes the loop; the wake-up
has no effect on the list. -/
def us_internal_dns_callback_threadsafe (c : ConnectingSocket)
    (addrinfo_req : Nat) (dns_ready_head : List ConnectingSocket) :
    List ConnectingSocket :=
  us_internal_dns_callback c addrinfo_req dns_ready_head

/-- `us_internal_drain_pending_dns_resolve` (loop.c lines 209-215): walk the
detached list from its head, invoking `us_internal_socket_after_resolve` on
each socket.  The returned list is the order of those invocations. -/
def us_internal_drain_pending_dns_resolve :
    List ConnectingSocket → List ConnectingSocket
  | [] => []
  | s :: next => s :: us_internal_drain_pending_dns_resolve next

/-- `us_internal_handle_dns_results` (loop.c lines 217-224): detach the whole
list under the mutex, empty the head, then drain the detached list.  Returns
the `after_resolve` invocation order and the new (empty) `dns_ready_head`. -/
def us_internal_handle_dns_results (dns_ready_head : List ConnectingSocket) :
    List ConnectingSocket × List ConnectingSocket :=
  (us_internal_drain_pending_dns_resolve dns_ready_head, [])

/-- Enqueue a whole arrival sequence (earliest first) of
(socket, result) pairs through `us_internal_dns_callback`. -/
def dnsEnqueueAll (arrivals : List (ConnectingSocket × Nat))
    (dns_ready_head : List ConnectingSocket) : List ConnectingSocket :=
  arrivals.foldl (fun head cr => us_internal_dns_callback cr.1 cr.2 head)
    dns_ready_head

/-! ## Low-priority admission queue (loop.c lines 165-187)

For the promotion pass only the `low_prio_state` flag and the poll-event mask
of the parked sockets matter; we embed the parked socket accordingly.  The
full socket record used by the dispatch model is defined further below. -/

/-- A socket as seen by `us_internal_handle_low_priority_sockets`: its
identity, its `low_prio_state` flag and its poll-event interest mask. -/
structure LPSocket where
  id : Nat
  low_prio_state : Nat
  poll_events : Nat
deriving DecidableEq, Repr

/-- One promotion step of the `for` loop body in
`us_internal_handle_low_priority_sockets` (loop.c lines 176-186): unlink the
socket from the low-priority queue, relink it into its context, add
`LIBUS_SOCKET_READABLE` back to its poll mask, and set `low_prio_state = 2`. -/
def promoteLowPrioSocket (s : LPSocket) : LPSocket :=
  { s with poll_events := s.poll_events ||| LIBUS_SOCKET_READABLE,
           low_prio_state := 2 }

/-- The `for` loop of `us_internal_handle_low_priority_sockets`
(loop.c line 176): pop sockets from the head of the low-priority queue while
the queue is non-empty and `low_prio_budget > 0`, promoting each and
decrementing the budget once per promoted socket.  Returns
(promoted sockets in promotion order, remaining queue, final budget). -/
def handleLowPrioLoop : Nat → List LPSocket →
    List LPSocket × List LPSocket × Nat
  | budget, [] => ([], [], budget)
  | 0, s :: rest => ([], s :: rest, 0)
  | budget + 1, s :: rest =>
      let r := handleLowPrioLoop budget rest
      (promoteLowPrioSocket s :: r.1, r.2.1, r.2.2)

/-- `us_internal_handle_low_priority_sockets` (loop.c lines 170-187): reset
`low_prio_budget` to `MAX_LOW_PRIO_SOCKETS_PER_LOOP_ITERATION` and run the
promotion loop on the low-priority queue.  Returns (promoted sockets,
remaining queue, loop's `low_prio_budget` after the call). -/
def us_internal_handle_low_priority_sockets (low_prio_head : List LPSocket) :
    List LPSocket × List LPSocket × Nat :=
  handleLowPrioLoop MAX_LOW_PRIO_SOCKETS_PER_LOOP_ITERATION low_prio_head

/-- `us_internal_loop_pre` (loop.c lines 269-274) as far as the low-priority
budget is concerned: `iteration_nr++` and `us_internal_handle_dns_results`
do not touch `low_prio_budget`; then `us_internal_handle_low_priority_sockets`
runs; the user `pre_cb` does not touch the budget either.  Returns the value
of `loop->data.low_prio_budget` at the moment `us_internal_loop_pre` returns,
i.e. when dispatch begins. -/
def budgetAfterLoopPre (low_prio_head : List LPSocket) : Nat :=
  (us_internal_handle_low_priority_sockets low_prio_head).2.2

/-! ## Two-wheel timeout sweep (loop.c lines 109-163)

The sweep walks every context of the loop; per context it advances the
per-context `global_tick` (a `u32`, embedded as `Nat % 2 ^ 32`), derives the
two one-byte wheel positions, and walks the context's socket list comparing
only the sockets' `timeout` / `long_timeout` bytes against those positions.
The user callbacks may mutate the socket they are given; the model records,
for each fired callback, the socket value at the moment of the call.  The
`context->iterator` retargeting facility (loop.c lines 139, 146, 151-157) is
for callbacks that relink the chain; with callbacks that mutate only their
own socket, `context->iterator == s` always holds and the walk advances one
socket at a time, which is what this embedding does. -/

/-- A socket as seen by the timer sweep: the two one-byte timeout wheels
(255 = disarmed). -/
structure SweepSocket where
  id : Nat
  timeout : Nat
  long_timeout : Nat
deriving DecidableEq, Repr

/-- A fired timeout callback, recording the socket value on entry to the
user handler. -/
inductive TimeoutEvent
  | short (entry : SweepSocket)
  | long (entry : SweepSocket)
deriving DecidableEq, Repr

/-- The slow path of the sweep for one matching socket
(loop.c lines 138-149): if the short wheel matches, write the 255 sentinel
into `s->timeout` and then invoke `on_socket_timeout`; afterwards, if the
long wheel matches the (possibly callback-mutated) socket, write 255 into
`s->long_timeout` and invoke `on_socket_long_timeout`.  The callbacks mutate
the socket in place; the trace records the socket at each call. -/
def sweepSlowPath (short_ticks long_ticks : Nat)
    (on_socket_timeout on_socket_long_timeout : SweepSocket → SweepSocket)
    (s : SweepSocket) : SweepSocket × List TimeoutEvent :=
  let r1 :=
    if short_ticks = s.timeout then
      let entry := { s with timeout := 255 }
      (on_socket_timeout entry, [TimeoutEvent.short entry])
    else (s, [])
  let r2 :=
    if long_ticks = r1.1.long_timeout then
      let entry := { r1.1 with long_timeout := 255 }
      (on_socket_long_timeout entry, [TimeoutEvent.long entry])
    else (r1.1, [])
  (r2.1, r1.2 ++ r2.2)

/-- One socket of the sweep's inner walk (loop.c lines 124-158): the tight
loop skips the socket unless one of the two wheel bytes matches; on a match
the slow path runs. -/
def sweepSocket (short_ticks long_ticks : Nat)
    (on_socket_timeout on_socket_long_timeout : SweepSocket → SweepSocket)
    (s : SweepSocket) : SweepSocket × List TimeoutEvent :=
  if short_ticks = s.timeout ∨ long_ticks = s.long_timeout then
    sweepSlowPath short_ticks long_ticks on_socket_timeout
      on_socket_long_timeout s
  else (s, [])

/-- A socket context as seen by the timer sweep. -/
structure SweepContext where
  global_tick : Nat
  timestamp : Nat
  long_timestamp : Nat
  head_sockets : List SweepSocket
deriving DecidableEq, Repr

/-- The per-context body of `us_internal_timer_sweep`
(loop.c lines 115-161): `context->global_tick++` (u32 wrap-around), then
`timestamp = global_tick % 240` and `long_timestamp = (global_tick / 15) % 240`
are stored, and exactly those two values are the `short_ticks` / `long_ticks`
compared against every socket's `timeout` / `long_timeout` bytes during the
walk.  Returns the updated context and the trace of fired callbacks. -/
def sweepContext
    (on_socket_timeout on_socket_long_timeout : SweepSocket → SweepSocket)
    (c : SweepContext) : SweepContext × List TimeoutEvent :=
  let tick := (c.global_tick + 1) % 2 ^ 32
  let short_ticks := tick % 240
  let long_ticks := (tick / 15) % 240
  let walk := c.head_sockets.map
    (sweepSocket short_ticks long_ticks on_socket_timeout
      on_socket_long_timeout)
  ({ c with global_tick := tick,
            timestamp := short_ticks,
            long_timestamp := long_ticks,
            head_sockets := walk.map Prod.fst },
   (walk.map Prod.snd).flatten)

/-! ## Dispatch of a ready TCP socket poll (loop.c lines 353-518)

`us_internal_dispatch_ready_poll`, cases `POLL_TYPE_SOCKET` /
`POLL_TYPE_SOCKET_SHUT_DOWN`.  The four phases (writable, readable, EOF,
error) are embedded as functions threading the socket, the loop data and a
trace of observable effects.  User callbacks are parameters; the results of
the non-blocking receive calls are supplied as an oracle list (an empty list
means the next receive would block).  The embedding follows the non-Windows
compilation of the file (`MSG_DONTWAIT`, `num_ready_polls` available). -/

/-- A `us_socket_t` as the dispatch uses it: the `us_socket_flags` bits, the
`low_prio_state`, and the poll's interest mask. -/
structure Socket where
  id : Nat
  is_closed : Bool
  is_shut_down : Bool
  allow_half_open : Bool
  is_ipc : Bool
  low_prio_state : Nat
  poll_events : Nat
  timeout : Nat
  long_timeout : Nat
deriving DecidableEq, Repr

/-- The per-loop data the socket dispatch reads and writes. -/
structure LoopData where
  last_write_failed : Bool
  low_prio_budget : Nat
  low_prio_head : List Socket
  num_ready_polls : Nat
deriving Repr

/-- Close codes surfaced to `on_close`. -/
inductive CloseCode
  | cleanShutdown
  | genericErr
  | pollError
deriving DecidableEq, Repr

/-- Observable effects of one dispatch, in program order. -/
inductive DispatchEvent
  | onWritable (id : Nat)
  | onFd (id fd : Nat)
  | onData (id n : Nat)
  | onEnd (id : Nat)
  | onClose (id : Nat) (code : CloseCode)
  | pollChange (id mask : Nat)
  | deferredToLowPrio (id : Nat)
deriving DecidableEq, Repr

/-- Modelled from the spec: `us_socket_close` lives in `socket_context.c`,
which is not among the extracted sources.  Per the spec it unlinks the
socket, stops its poll, marks it closed and fires `on_close` exactly once;
closing an already-closed socket is a no-op. -/
def us_socket_close (s : Socket) (code : CloseCode) :
    Socket × List DispatchEvent :=
  if s.is_closed then (s, [])
  else ({ s with is_closed := true }, [DispatchEvent.onClose s.id code])

/-- Modelled from the spec: `us_poll_change` is the poller adapter's
interest-mask update; it stores the new mask on the poll. -/
def us_poll_change (s : Socket) (mask : Nat) : Socket × DispatchEvent :=
  ({ s with poll_events := mask }, DispatchEvent.pollChange s.id mask)

/-- The per-context user callback table as the socket dispatch uses it.
`on_writable` additionally reports the value of `loop->data.last_write_failed`
after the callback (a write inside the callback may fail); `on_data`,
`on_writable` may return a null socket, as the source checks. -/
structure Callbacks where
  is_low_prio : Socket → Bool
  on_writable : Socket → Option Socket × Bool
  on_data : Socket → Nat → Option Socket
  on_fd : Socket → Nat → Socket
  on_end : Socket → Socket

/-- One result of `bsd_recv` / `bsd_recvmsg`: either a byte count `n ≥ 0`
(with, for IPC sockets, an optional SCM_RIGHTS descriptor), or
`LIBUS_SOCKET_ERROR` split by `bsd_would_block()`. -/
inductive RecvResult
  | bytes (n : Nat) (cmsgFd : Option Nat)
  | sockErr (wouldBlock : Bool)
deriving DecidableEq, Repr

/-- `s && !us_socket_is_closed(0, s)` on a possibly-null socket pointer. -/
def socketAlive : Option Socket → Bool
  | none => false
  | some s => !s.is_closed

/-- The repeat-receive condition of loop.c lines 462-466:
`s && length >= LIBUS_RECV_BUFFER_LENGTH - 24 * 1024 &&
length <= LIBUS_RECV_BUFFER_LENGTH &&
(error || loop->num_ready_polls < LOOP_ISNT_VERY_BUSY_THRESHOLD) &&
!us_socket_is_closed(0, s)`. -/
def repeatRecvCondition (s : Option Socket) (length : Nat) (error : Bool)
    (num_ready_polls : Nat) : Bool :=
  socketAlive s
    && decide (LIBUS_RECV_BUFFER_LENGTH - 24 * 1024 ≤ length)
    && decide (length ≤ LIBUS_RECV_BUFFER_LENGTH)
    && (error || decide (num_ready_polls < LOOP_ISNT_VERY_BUSY_THRESHOLD))

/-- Loop.c lines 462-474: if the repeat-receive condition holds, bump
`repeat_recv_count` by `error == 0` and `continue` unless
`repeat_recv_count > 10 && loop->num_ready_polls > 2`.  Returns
(whether `continue` runs, the updated `repeat_recv_count`). -/
def repeatRecvDecision (s : Option Socket) (length : Nat) (error : Bool)
    (num_ready_polls repeat_recv_count : Nat) : Bool × Nat :=
  if repeatRecvCondition s length error num_ready_polls then
    let c := repeat_recv_count + (if error then 0 else 1)
    (!(decide (c > 10) && decide (num_ready_polls > 2)), c)
  else (false, repeat_recv_count)

/-- How the bounded receive loop of loop.c lines 409-487 ends. -/
inductive RecvLoopExit
  | brk (s : Option Socket) (eofSet : Bool)
  | ret
deriving Repr

/-- The bounded receive loop (loop.c lines 409-487).  Each oracle entry is
one receive result; an exhausted oracle stands for a receive that would
block.  For an IPC socket a received SCM_RIGHTS descriptor is delivered to
`on_fd` before the payload reaches `on_data` (lines 437-446); `n > 0` calls
`on_data` and applies `repeatRecvDecision`; `n = 0` records EOF and breaks;
a hard receive error closes the socket with the generic error code and
returns from the dispatch. -/
def recvLoop (cb : Callbacks) (error : Bool) (num_ready_polls : Nat) :
    List RecvResult → Nat → Socket → RecvLoopExit × List DispatchEvent
  | [], _, s => (RecvLoopExit.brk (some s) false, [])
  | RecvResult.sockErr true :: _, _, s => (RecvLoopExit.brk (some s) false, [])
  | RecvResult.sockErr false :: _, _, s =>
      let c := us_socket_close s CloseCode.genericErr
      (RecvLoopExit.ret, c.2)
  | RecvResult.bytes n cmsgFd :: rest, repeat_recv_count, s =>
      if n > 0 then
        let fdStep :=
          if s.is_ipc then
            match cmsgFd with
            | some fd => (cb.on_fd s fd, [DispatchEvent.onFd s.id fd], true)
            | none => (s, [], false)
          else (s, [], false)
        let s0 := fdStep.1
        if fdStep.2.2 ∧ s0.is_closed then
          (RecvLoopExit.brk (some s0) false, fdStep.2.1)
        else
          let sd := cb.on_data s0 n
          let evs := fdStep.2.1 ++ [DispatchEvent.onData s0.id n]
          let dec := repeatRecvDecision sd n error num_ready_polls
            repeat_recv_count
          if dec.1 then
            match sd with
            | some s1 =>
                let r := recvLoop cb error num_ready_polls rest dec.2 s1
                (r.1, evs ++ r.2)
            | none => (RecvLoopExit.brk none false, evs)
          else (RecvLoopExit.brk sd false, evs)
      else
        (RecvLoopExit.brk (some s) true, [])

/-- How one phase of the socket dispatch hands over to the next. -/
inductive PhaseExit
  | ret
  | brkSwitch
  | next (s : Option Socket) (eof : Bool)
deriving Repr

/-- The readable phase (loop.c lines 376-488): low-priority admission
control, then the bounded receive loop.  A socket classified low-prio with
`low_prio_state = 2` pays no budget and proceeds; with budget left the budget
is decremented; otherwise the socket's mask is cut to WRITABLE, it is
unlinked from its context, pushed LIFO onto the loop's low-priority queue
with `low_prio_state = 1`, and the `break` leaves the whole switch case. -/
def readablePhase (cb : Callbacks) (recvs : List RecvResult) (error : Bool)
    (s : Socket) (loop : LoopData) :
    PhaseExit × LoopData × List DispatchEvent :=
  let runRecv : LoopData → PhaseExit × LoopData × List DispatchEvent :=
    fun ld =>
      let r := recvLoop cb error ld.num_ready_polls recvs 0 s
      match r.1 with
      | RecvLoopExit.brk so eofSet => (PhaseExit.next so eofSet, ld, r.2)
      | RecvLoopExit.ret => (PhaseExit.ret, ld, r.2)
  let runRecvState2 : LoopData → PhaseExit × LoopData × List DispatchEvent :=
    fun ld =>
      let s2 := { s with low_prio_state := 0 }
      let r := recvLoop cb error ld.num_ready_polls recvs 0 s2
      match r.1 with
      | RecvLoopExit.brk so eofSet => (PhaseExit.next so eofSet, ld, r.2)
      | RecvLoopExit.ret => (PhaseExit.ret, ld, r.2)
  if cb.is_low_prio s then
    if s.low_prio_state = 2 then
      runRecvState2 loop
    else if loop.low_prio_budget > 0 then
      runRecv { loop with low_prio_budget := loop.low_prio_budget - 1 }
    else
      let pc := us_poll_change s (s.poll_events &&& LIBUS_SOCKET_WRITABLE)
      let parked := { pc.1 with low_prio_state := 1 }
      (PhaseExit.brkSwitch,
       { loop with low_prio_head := parked :: loop.low_prio_head },
       [pc.2, DispatchEvent.deferredToLowPrio s.id])
  else
    runRecv loop

/-- The EOF phase (loop.c lines 490-510), entered with `eof` set and a
non-null socket.  Returns (resulting socket, whether a `return` ran,
events). -/
def eofPhase (cb : Callbacks) (s : Socket) :
    Option Socket × Bool × List DispatchEvent :=
  if s.is_closed then
    (some s, true, [])
  else if s.is_shut_down then
    let c := us_socket_close s CloseCode.cleanShutdown
    (some c.1, true, c.2)
  else if s.allow_half_open then
    let pc := us_poll_change s (s.poll_events &&& LIBUS_SOCKET_WRITABLE)
    let s1 := cb.on_end pc.1
    (some s1, false, [pc.2, DispatchEvent.onEnd pc.1.id])
  else
    let s1 := cb.on_end s
    let c := us_socket_close s1 CloseCode.cleanShutdown
    (some c.1, true, [DispatchEvent.onEnd s.id] ++ c.2)

/-- The error phase (loop.c lines 512-516): with the error flag set and a
non-null socket, close it with the poller-reported error as the reason. -/
def errorPhase (error : Bool) (s : Option Socket) :
    Option Socket × List DispatchEvent :=
  match s with
  | none => (none, [])
  | some s' =>
      if error then
        let c := us_socket_close s' CloseCode.pollError
        (some c.1, c.2)
      else (some s', [])

/-- The `POLL_TYPE_SOCKET` / `POLL_TYPE_SOCKET_SHUT_DOWN` case of
`us_internal_dispatch_ready_poll` (loop.c lines 353-518): writable phase,
readable phase, EOF phase, error phase, in that order, with the source's
early exits.  Returns the loop data and the trace of observable effects. -/
def dispatchSocketPoll (cb : Callbacks) (recvs : List RecvResult)
    (error : Bool) (eof : Bool) (events : Nat) (s : Socket)
    (loop : LoopData) : LoopData × List DispatchEvent :=
  -- Writable phase (loop.c lines 359-374)
  let w : (LoopData × List DispatchEvent) ⊕
      (Socket × LoopData × List DispatchEvent) :=
    if events &&& LIBUS_SOCKET_WRITABLE ≠ 0 ∧ error = false then
      let wr := cb.on_writable s
      let evs := [DispatchEvent.onWritable s.id]
      match wr.1 with
      | none => Sum.inl ({ loop with last_write_failed := wr.2 }, evs)
      | some s1 =>
          let loop1 := { loop with last_write_failed := wr.2 }
          if s1.is_closed then Sum.inl (loop1, evs)
          else if wr.2 = false ∨ s1.is_shut_down then
            let pc := us_poll_change s1
              (s1.poll_events &&& LIBUS_SOCKET_READABLE)
            Sum.inr (pc.1, loop1, evs ++ [pc.2])
          else Sum.inr (s1, loop1, evs)
    else Sum.inr (s, loop, [])
  match w with
  | Sum.inl r => r
  | Sum.inr (s1, loop1, evs1) =>
      let r : PhaseExit × LoopData × List DispatchEvent :=
        if events &&& LIBUS_SOCKET_READABLE ≠ 0 then
          readablePhase cb recvs error s1 loop1
        else (PhaseExit.next (some s1) false, loop1, [])
      match r.1 with
      | PhaseExit.ret => (r.2.1, evs1 ++ r.2.2)
      | PhaseExit.brkSwitch => (r.2.1, evs1 ++ r.2.2)
      | PhaseExit.next s2 eofSet =>
          let eof1 := eof || eofSet
          let e : (Option Socket × Bool × List DispatchEvent) :=
            match s2 with
            | some s3 => if eof1 then eofPhase cb s3 else (some s3, false, [])
            | none => (none, false, [])
          if e.2.1 then (r.2.1, evs1 ++ r.2.2 ++ e.2.2)
          else
            let er := errorPhase error e.1
            (r.2.1, evs1 ++ r.2.2 ++ e.2.2 ++ er.2)

/-! ## Dispatch of a ready listening semi-socket (loop.c lines 303-352)

The accept loop of the `POLL_TYPE_SEMI_SOCKET` case, non-writable (listening)
branch.  `bsd_accept_socket` results are supplied as an oracle list of client
descriptors; an exhausted list stands for `LIBUS_SOCKET_ERROR`
(accept would block). -/

/-- The listen socket as the accept loop uses it. -/
structure ListenSocket where
  id : Nat
  is_closed : Bool
  allow_half_open : Bool
deriving DecidableEq, Repr

/-- Initialization of a freshly accepted socket (loop.c lines 321-334):
poll started with READABLE interest, timeouts disarmed (255),
`low_prio_state = 0`, `allow_half_open` inherited from the listen socket,
not paused, not IPC. -/
def initAcceptedSocket (listen : ListenSocket) (client_fd : Nat) : Socket :=
  { id := client_fd
    is_closed := false
    is_shut_down := false
    allow_half_open := listen.allow_half_open
    is_ipc := false
    low_prio_state := 0
    poll_events := LIBUS_SOCKET_READABLE
    timeout := 255
    long_timeout := 255 }

/-- Observable effects of the accept loop, in program order. -/
inductive AcceptEvent
  | accepted (fd : Nat)
  | onOpen (fd : Nat)
deriving DecidableEq, Repr

/-- The `do { ... } while ((client_fd = bsd_accept_socket(...)) != ERROR)`
loop (loop.c lines 320-348): per accepted descriptor, create and initialize
the socket, link it into the listen socket's context, invoke `on_open`, and
exit the loop immediately if the handler closed the listen socket (line 344);
otherwise the `while` condition issues the next accept.  The `on_open`
parameter returns the listen socket's state after the handler ran. -/
def acceptLoop (on_open : Socket → ListenSocket → ListenSocket) :
    ListenSocket → List Nat → List AcceptEvent × ListenSocket
  | listen, [] => ([], listen)
  | listen, client_fd :: rest =>
      let s := initAcceptedSocket listen client_fd
      let listen1 := on_open s listen
      let evs := [AcceptEvent.accepted client_fd, AcceptEvent.onOpen client_fd]
      if listen1.is_closed then (evs, listen1)
      else
        let r := acceptLoop on_open listen1 rest
        (evs ++ r.1, r.2)

/-! ## Per-iteration admission accounting (loop.c lines 170-187 and 376-405)

What the readable-phase admission control does to `low_prio_budget`, folded
over all readable dispatches of one loop iteration. -/

/-- How the admission control of loop.c lines 382-404 classifies one
readable dispatch. -/
inductive Admission
  | state2
  | budget
  | deferredQ
  | normal
deriving DecidableEq, Repr

/-- The admission control of loop.c lines 382-404, reduced to its effect on
`low_prio_budget`: a `low_prio_state = 2` socket is admitted without touching
the budget; otherwise a positive budget is decremented and the socket
admitted; otherwise the socket is deferred. -/
def admissionControl (is_low_prio : Bool) (low_prio_state budget : Nat) :
    Admission × Nat :=
  if is_low_prio then
    if low_prio_state = 2 then (Admission.state2, budget)
    else if budget > 0 then (Admission.budget, budget - 1)
    else (Admission.deferredQ, budget)
  else (Admission.normal, budget)

/-- Fold `admissionControl` over the readable dispatches of one iteration
(each given by its `is_low_prio` classification and `low_prio_state`),
counting the admissions that decremented the budget.  Returns
(count of budget admissions, final budget). -/
def countBudgetAdmissions : Nat → List (Bool × Nat) → Nat × Nat
  | budget, [] => (0, budget)
  | budget, d :: rest =>
      let a := admissionControl d.1 d.2 budget
      let r := countBudgetAdmissions a.2 rest
      (r.1 + (if a.1 = Admission.budget then 1 else 0), r.2)

/-! ## Helper lemmas -/

theorem drain_pending_dns_resolve_eq (l : List ConnectingSocket) :
    us_internal_drain_pending_dns_resolve l = l := by
  induction l with
  | nil => rfl
  | cons s next ih =>
      simp [us_internal_drain_pending_dns_resolve, ih]

theorem dnsEnqueueAll_eq (arrivals : List (ConnectingSocket × Nat))
    (head : List ConnectingSocket) :
    dnsEnqueueAll arrivals head =
      (arrivals.map
        (fun cr => { cr.1 with addrinfo_req := some cr.2 })).reverse ++ head := by
  induction arrivals generalizing head with
  | nil => simp [dnsEnqueueAll]
  | cons cr rest ih =>
      simp [dnsEnqueueAll, us_internal_dns_callback] at ih ⊢
      rw [ih]

theorem handleLowPrioLoop_length_add_budget (budget : Nat) (l : List LPSocket) :
    (handleLowPrioLoop budget l).1.length +
      (handleLowPrioLoop budget l).2.2 = budget := by
  induction budget generalizing l with
  | zero => cases l <;> simp [handleLowPrioLoop]
  | succ b ih =>
      cases l with
      | nil => simp [handleLowPrioLoop]
      | cons s rest =>
          simp [handleLowPrioLoop]
          have := ih rest
          omega

theorem handleLowPrioLoop_states (budget : Nat) (l : List LPSocket) :
    (handleLowPrioLoop budget l).1.map LPSocket.low_prio_state =
      List.replicate (handleLowPrioLoop budget l).1.length 2 := by
  induction budget generalizing l with
  | zero => cases l <;> simp [handleLowPrioLoop]
  | succ b ih =>
      cases l with
      | nil => simp [handleLowPrioLoop]
      | cons s rest =>
          simp [handleLowPrioLoop, promoteLowPrioSocket, List.replicate, ih]

theorem countBudgetAdmissions_add_budget (budget : Nat)
    (dispatches : List (Bool × Nat)) :
    (countBudgetAdmissions budget dispatches).1 +
      (countBudgetAdmissions budget dispatches).2 = budget := by
  induction dispatches generalizing budget with
  | nil => simp [countBudgetAdmissions]
  | cons d rest ih =>
      simp only [countBudgetAdmissions]
      rcases d with ⟨ilp, st⟩
      by_cases hilp : ilp = true
      · subst hilp
        by_cases hst : st = 2
        · subst hst
          simpa [admissionControl] using ih budget
        · by_cases hb : budget > 0
          · have := ih (budget - 1)
            simp [admissionControl, hst, hb]
            omega
          · have := ih budget
            simp [admissionControl, hst, hb]
            omega
      · have hilp' : ilp = false := by
          cases ilp <;> simp_all
        subst hilp'
        simpa [admissionControl] using ih budget

/-! ## Claim C1: DNS completion delivery order -/

/-- A concrete connecting socket for counterexamples and witnesses. -/
def dnsSocketA : ConnectingSocket := { id := 0, addrinfo_req := none }

/-- A second concrete connecting socket. -/
def dnsSocketB : ConnectingSocket := { id := 1, addrinfo_req := none }

/-- C1 (counterexample): two completions enqueued through
`us_internal_dns_callback` in the order A then B are drained by
`us_internal_handle_dns_results` as B then A — the reverse of their arrival
order, refuting FIFO delivery. -/
theorem dns_drain_not_fifo :
    (us_internal_handle_dns_results
        (dnsEnqueueAll [(dnsSocketA, 10), (dnsSocketB, 11)] [])).1 =
      [{ dnsSocketB with addrinfo_req := some 11 },
       { dnsSocketA with addrinfo_req := some 10 }] ∧
    (us_internal_handle_dns_results
        (dnsEnqueueAll [(dnsSocketA, 10), (dnsSocketB, 11)] [])).1 ≠
      [{ dnsSocketA with addrinfo_req := some 10 },
       { dnsSocketB with addrinfo_req := some 11 }] := by
  constructor
  · rfl
  · decide

/-- C1 (amended): for every sequence of completions pushed onto an initially
empty DNS-ready list via `us_internal_dns_callback` (and hence also via
`us_internal_dns_callback_threadsafe`, which performs the same push), the
drain of `us_internal_handle_dns_results` invokes
`us_internal_socket_after_resolve` in LIFO order: the reverse of the
enqueue order. -/
theorem dns_drain_lifo (arrivals : List (ConnectingSocket × Nat)) :
    (us_internal_handle_dns_results (dnsEnqueueAll arrivals [])).1 =
      (arrivals.map
        (fun cr => { cr.1 with addrinfo_req := some cr.2 })).reverse := by
  simp [us_internal_handle_dns_results, drain_pending_dns_resolve_eq,
    dnsEnqueueAll_eq]

/-! ## Claims C3, C4, C10: low-priority budget accounting -/

/-- A concrete parked low-priority socket. -/
def parkedSocket : LPSocket :=
  { id := 3, low_prio_state := 1, poll_events := LIBUS_SOCKET_WRITABLE }

/-- C3 (counterexample): with a single parked socket on the low-priority
list, `us_internal_loop_pre` returns with `low_prio_budget = 4`, not
`MAX_LOW_PRIO_SOCKETS_PER_LOOP_ITERATION = 5`: the promotion loop inside
`us_internal_handle_low_priority_sockets` decrements the budget it has just
reset. -/
theorem budget_after_pre_not_max :
    budgetAfterLoopPre [parkedSocket] = 4 ∧
    budgetAfterLoopPre [parkedSocket] ≠
      MAX_LOW_PRIO_SOCKETS_PER_LOOP_ITERATION := by
  decide

/-- C3 (amended): at the moment dispatch begins (after `us_internal_loop_pre`
returns), `low_prio_budget` equals `MAX_LOW_PRIO_SOCKETS_PER_LOOP_ITERATION`
minus the number of sockets just promoted by
`us_internal_handle_low_priority_sockets`; it equals the maximum exactly when
the low-priority list was empty at pre-hook. -/
theorem budget_after_pre_eq_max_sub_promoted (low_prio_head : List LPSocket) :
    budgetAfterLoopPre low_prio_head =
      MAX_LOW_PRIO_SOCKETS_PER_LOOP_ITERATION -
        (us_internal_handle_low_priority_sockets low_prio_head).1.length ∧
    (budgetAfterLoopPre low_prio_head =
        MAX_LOW_PRIO_SOCKETS_PER_LOOP_ITERATION ↔ low_prio_head = []) := by
  have hsum := handleLowPrioLoop_length_add_budget
    MAX_LOW_PRIO_SOCKETS_PER_LOOP_ITERATION low_prio_head
  constructor
  · simp only [budgetAfterLoopPre, us_internal_handle_low_priority_sockets]
      at hsum ⊢
    omega
  · constructor
    · intro h
      cases low_prio_head with
      | nil => rfl
      | cons s rest =>
          exfalso
          simp only [budgetAfterLoopPre,
            us_internal_handle_low_priority_sockets,
            MAX_LOW_PRIO_SOCKETS_PER_LOOP_ITERATION] at h hsum
          simp only [handleLowPrioLoop, List.length_cons] at h hsum
          omega
    · intro h
      subst h
      rfl

/-- C4: in any single loop iteration,
`us_internal_handle_low_priority_sockets` promotes at most
`MAX_LOW_PRIO_SOCKETS_PER_LOOP_ITERATION = 5` sockets into
`low_prio_state = 2` (and every promoted socket is indeed put into
state 2). -/
theorem promotions_per_iteration_bounded (low_prio_head : List LPSocket) :
    (us_internal_handle_low_priority_sockets low_prio_head).1.length ≤
      MAX_LOW_PRIO_SOCKETS_PER_LOOP_ITERATION ∧
    (us_internal_handle_low_priority_sockets low_prio_head).1.map
        LPSocket.low_prio_state =
      List.replicate
        (us_internal_handle_low_priority_sockets low_prio_head).1.length 2 := by
  have hsum := handleLowPrioLoop_length_add_budget
    MAX_LOW_PRIO_SOCKETS_PER_LOOP_ITERATION low_prio_head
  constructor
  · simp only [us_internal_handle_low_priority_sockets]
    omega
  · exact handleLowPrioLoop_states MAX_LOW_PRIO_SOCKETS_PER_LOOP_ITERATION
      low_prio_head

/-- The readable-phase admission control of `us_internal_dispatch_ready_poll`
changes `low_prio_budget` exactly as `admissionControl` says. -/
theorem readablePhase_budget_eq_admissionControl (cb : Callbacks)
    (recvs : List RecvResult) (error : Bool) (s : Socket) (loop : LoopData) :
    (readablePhase cb recvs error s loop).2.1.low_prio_budget =
      (admissionControl (cb.is_low_prio s) s.low_prio_state
        loop.low_prio_budget).2 := by
  by_cases hlp : cb.is_low_prio s
  · by_cases hst : s.low_prio_state = 2
    · simp only [readablePhase, admissionControl, hlp, hst]
      simp
      rcases recvLoop cb error loop.num_ready_polls recvs 0
        { s with low_prio_state := 0 } with ⟨e, evs⟩
      cases e <;> simp
    · by_cases hb : loop.low_prio_budget > 0
      · simp only [readablePhase, admissionControl, hlp, hst, hb]
        simp
        rcases recvLoop cb error loop.num_ready_polls recvs 0 s with ⟨e, evs⟩
        cases e <;> simp
      · simp [readablePhase, admissionControl, hlp, hst, hb]
  · simp only [readablePhase, admissionControl, hlp]
    simp
    rcases recvLoop cb error loop.num_ready_polls recvs 0 s with ⟨e, evs⟩
    cases e <;> simp

/-- C10: across a single loop iteration, the sockets promoted at pre-hook by
`us_internal_handle_low_priority_sockets` and the sockets admitted during
dispatch by decrementing `low_prio_budget` draw on the same budget, so their
total is at most `MAX_LOW_PRIO_SOCKETS_PER_LOOP_ITERATION = 5`; moreover the
dispatch admission control is exactly the budget transformation performed by
the readable phase of `us_internal_dispatch_ready_poll`. -/
theorem total_low_prio_admissions_bounded (low_prio_head : List LPSocket)
    (dispatches : List (Bool × Nat)) :
    (us_internal_handle_low_priority_sockets low_prio_head).1.length +
        (countBudgetAdmissions
          (us_internal_handle_low_priority_sockets low_prio_head).2.2
          dispatches).1 ≤
      MAX_LOW_PRIO_SOCKETS_PER_LOOP_ITERATION ∧
    ∀ (cb : Callbacks) (recvs : List RecvResult) (error : Bool) (s : Socket)
        (loop : LoopData),
      (readablePhase cb recvs error s loop).2.1.low_prio_budget =
        (admissionControl (cb.is_low_prio s) s.low_prio_state
          loop.low_prio_budget).2 := by
  constructor
  · have h1 := handleLowPrioLoop_length_add_budget
      MAX_LOW_PRIO_SOCKETS_PER_LOOP_ITERATION low_prio_head
    have h2 := countBudgetAdmissions_add_budget
      (us_internal_handle_low_priority_sockets low_prio_head).2.2 dispatches
    simp only [us_internal_handle_low_priority_sockets] at h2 ⊢
    omega
  · intro cb recvs error s loop
    exact readablePhase_budget_eq_admissionControl cb recvs error s loop

/-! ## Claims C5, C8: timer sweep -/

theorem sweepSlowPath_short_sentinel (st lt : Nat)
    (f g : SweepSocket → SweepSocket) (s : SweepSocket) (entry : SweepSocket)
    (he : TimeoutEvent.short entry ∈ (sweepSlowPath st lt f g s).2) :
    entry.timeout = 255 := by
  simp only [sweepSlowPath] at he
  split_ifs at he <;> simp_all

theorem sweepSlowPath_long_sentinel (st lt : Nat)
    (f g : SweepSocket → SweepSocket) (s : SweepSocket) (entry : SweepSocket)
    (he : TimeoutEvent.long entry ∈ (sweepSlowPath st lt f g s).2) :
    entry.long_timeout = 255 := by
  simp only [sweepSlowPath] at he
  split_ifs at he <;> simp_all

theorem sweepContext_mem_cases
    (f g : SweepSocket → SweepSocket) (c : SweepContext) (e : TimeoutEvent)
    (he : e ∈ (sweepContext f g c).2) :
    ∃ s ∈ c.head_sockets,
      e ∈ (sweepSocket ((c.global_tick + 1) % 2 ^ 32 % 240)
        ((c.global_tick + 1) % 2 ^ 32 / 15 % 240) f g s).2 := by
  simp only [sweepContext, List.map_map, Function.comp, List.mem_flatten,
    List.mem_map] at he
  rcases he with ⟨l, ⟨s, hs, rfl⟩, hel⟩
  exact ⟨s, hs, hel⟩

/-- C5: whenever the timer sweep fires a callback, the corresponding timeout
byte already holds the disarmed sentinel 255 on entry to the handler: the
sweep writes `s->timeout = 255` before invoking `on_socket_timeout`, and
`s->long_timeout = 255` before invoking `on_socket_long_timeout`. -/
theorem timeout_sentinel_on_entry
    (on_socket_timeout on_socket_long_timeout : SweepSocket → SweepSocket)
    (c : SweepContext) :
    (∀ entry : SweepSocket,
      TimeoutEvent.short entry ∈
          (sweepContext on_socket_timeout on_socket_long_timeout c).2 →
        entry.timeout = 255) ∧
    (∀ entry : SweepSocket,
      TimeoutEvent.long entry ∈
          (sweepContext on_socket_timeout on_socket_long_timeout c).2 →
        entry.long_timeout = 255) := by
  constructor
  · intro entry he
    rcases sweepContext_mem_cases _ _ _ _ he with ⟨s, _, hmem⟩
    simp only [sweepSocket] at hmem
    split_ifs at hmem
    · exact sweepSlowPath_short_sentinel _ _ _ _ _ _ hmem
    · simp at hmem
  · intro entry he
    rcases sweepContext_mem_cases _ _ _ _ he with ⟨s, _, hmem⟩
    simp only [sweepSocket] at hmem
    split_ifs at hmem
    · exact sweepSlowPath_long_sentinel _ _ _ _ _ _ hmem
    · simp at hmem

/-- A sweep-fixture socket whose short wheel matches tick 1. -/
def sweepWitnessSocket : SweepSocket :=
  { id := 0, timeout := 1, long_timeout := 255 }

/-- A sweep-fixture context holding `sweepWitnessSocket` at tick 0. -/
def sweepWitnessContext : SweepContext :=
  { global_tick := 0, timestamp := 0, long_timestamp := 0,
    head_sockets := [sweepWitnessSocket] }

/-- C5 (witness): sweeping `sweepWitnessContext` fires one short timeout,
and the sentinel theorem applies to it. -/
theorem timeout_sentinel_on_entry_witness :
    ({ id := 0, timeout := 255, long_timeout := 255 } : SweepSocket).timeout
      = 255 :=
  (timeout_sentinel_on_entry id id sweepWitnessContext).1
    { id := 0, timeout := 255, long_timeout := 255 } (by decide)

/-- `us_internal_timer_sweep` (loop.c lines 110-163): the sweep body applied
to every context of the loop. -/
def us_internal_timer_sweep
    (on_socket_timeout on_socket_long_timeout : SweepSocket → SweepSocket)
    (contexts : List SweepContext) :
    List (SweepContext × List TimeoutEvent) :=
  contexts.map (sweepContext on_socket_timeout on_socket_long_timeout)

/-- C8: each sweep fire advances every context's `global_tick` by exactly 1
(wrapping modulo `2 ^ 32`), stores `timestamp = global_tick % 240` and
`long_timestamp = global_tick / 15 % 240`, and walks the socket list
comparing exactly those two stored values against the sockets' `timeout` /
`long_timeout` bytes. -/
theorem sweep_tick_update
    (f g : SweepSocket → SweepSocket) (c : SweepContext)
    (contexts : List SweepContext) :
    (sweepContext f g c).1.global_tick = (c.global_tick + 1) % 2 ^ 32 ∧
    (sweepContext f g c).1.timestamp =
      (sweepContext f g c).1.global_tick % 240 ∧
    (sweepContext f g c).1.long_timestamp =
      (sweepContext f g c).1.global_tick / 15 % 240 ∧
    (sweepContext f g c).1.head_sockets =
      c.head_sockets.map (fun s =>
        (sweepSocket (sweepContext f g c).1.timestamp
          (sweepContext f g c).1.long_timestamp f g s).1) ∧
    (sweepContext f g c).2 =
      (c.head_sockets.map (fun s =>
        (sweepSocket (sweepContext f g c).1.timestamp
          (sweepContext f g c).1.long_timestamp f g s).2)).flatten ∧
    (us_internal_timer_sweep f g contexts).map
        (fun r => r.1.global_tick) =
      contexts.map (fun ctx => (ctx.global_tick + 1) % 2 ^ 32) := by
  refine ⟨rfl, rfl, rfl, ?_, ?_, ?_⟩
  · simp [sweepContext, Function.comp_def]
  · simp [sweepContext, Function.comp_def]
  · simp [us_internal_timer_sweep, sweepContext]

/-! ## Claim C6: repeat-receive heuristic -/

/-- A concrete open, non-IPC socket used by the dispatch fixtures. -/
def rxSocket : Socket :=
  { id := 4, is_closed := false, is_shut_down := false,
    allow_half_open := false, is_ipc := false, low_prio_state := 0,
    poll_events := LIBUS_SOCKET_READABLE, timeout := 255, long_timeout := 255 }

/-- C6: after `on_data` returns socket `s` for a read of length `n ≤ R`
(`R = LIBUS_RECV_BUFFER_LENGTH`, the size of the buffer handed to the
receive call), another receive is issued iff `s` is non-null and not closed,
`n ≥ R − 24 KiB`, either the error flag is set or `num_ready_polls < 25`,
and — the 10-repeat cap — not (the updated repeat count exceeds 10 while
`num_ready_polls > 2`).  A read of exactly `R` bytes can trigger a repeat; a
read of `R − 24 KiB − 1` bytes never does. -/
theorem repeat_recv_heuristic :
    (∀ (s : Option Socket) (n : Nat) (error : Bool) (polls count : Nat),
      n ≤ LIBUS_RECV_BUFFER_LENGTH →
      ((repeatRecvDecision s n error polls count).1 = true ↔
        (socketAlive s = true ∧
         LIBUS_RECV_BUFFER_LENGTH - 24 * 1024 ≤ n ∧
         (error = true ∨ polls < LOOP_ISNT_VERY_BUSY_THRESHOLD) ∧
         ¬(count + (if error = true then 0 else 1) > 10 ∧ polls > 2)))) ∧
    (∃ (s : Option Socket) (error : Bool) (polls count : Nat),
      (repeatRecvDecision s LIBUS_RECV_BUFFER_LENGTH error polls
          count).1 = true) ∧
    (∀ (s : Option Socket) (error : Bool) (polls count : Nat),
      (repeatRecvDecision s (LIBUS_RECV_BUFFER_LENGTH - 24 * 1024 - 1) error
          polls count).1 = false) := by
  refine ⟨?_, ⟨some rxSocket, false, 0, 0, by decide⟩, ?_⟩
  · intro s n error polls count hn
    cases error <;>
      simp only [repeatRecvDecision, repeatRecvCondition,
        LOOP_ISNT_VERY_BUSY_THRESHOLD] <;>
      split_ifs with hc <;>
      simp_all <;> omega
  · intro s error polls count
    have hfalse : repeatRecvCondition s
        (LIBUS_RECV_BUFFER_LENGTH - 24 * 1024 - 1) error polls = false := by
      simp [repeatRecvCondition, LIBUS_RECV_BUFFER_LENGTH]
    simp [repeatRecvDecision, hfalse]

/-- C6 (witness): a receive of exactly `LIBUS_RECV_BUFFER_LENGTH` bytes by an
open socket on a quiet loop repeats the receive. -/
theorem repeat_recv_heuristic_witness :
    (repeatRecvDecision (some rxSocket) LIBUS_RECV_BUFFER_LENGTH false 0
        0).1 = true :=
  (repeat_recv_heuristic.1 (some rxSocket) LIBUS_RECV_BUFFER_LENGTH false 0 0
      (by decide)).mpr (by decide)

/-! ## Claim C7: EOF phase case split -/

/-- With no readiness bits, no error, and the EOF flag set, the trace of the
socket dispatch is exactly the EOF phase's trace. -/
theorem dispatch_trace_eof_only (cb : Callbacks) (recvs : List RecvResult)
    (s : Socket) (loop : LoopData) :
    (dispatchSocketPoll cb recvs false true 0 s loop).2 =
      (eofPhase cb s).2.2 := by
  have hw : (0 : Nat) &&& LIBUS_SOCKET_WRITABLE = 0 := by decide
  have hr : (0 : Nat) &&& LIBUS_SOCKET_READABLE = 0 := by decide
  simp only [dispatchSocketPoll, hw, hr]
  rcases heq : eofPhase cb s with ⟨so, b, evs⟩
  cases b <;> cases so <;> simp [heq, errorPhase]

/-- C7: in the EOF phase (EOF flag set, socket still open): a socket already
shut down is closed with `CLEAN_SHUTDOWN` and `on_end` is not invoked; else
with `allow_half_open` set, READABLE is removed from the poll mask and
`on_end` is invoked without closing; else `on_end` is invoked and then the
socket (as returned by `on_end`) is closed with `CLEAN_SHUTDOWN`. -/
theorem eof_phase_behaviour (cb : Callbacks) (recvs : List RecvResult)
    (s : Socket) (loop : LoopData) (hopen : s.is_closed = false) :
    (s.is_shut_down = true →
      (dispatchSocketPoll cb recvs false true 0 s loop).2 =
        [DispatchEvent.onClose s.id CloseCode.cleanShutdown]) ∧
    (s.is_shut_down = false → s.allow_half_open = true →
      (dispatchSocketPoll cb recvs false true 0 s loop).2 =
        [DispatchEvent.pollChange s.id
            (s.poll_events &&& LIBUS_SOCKET_WRITABLE),
         DispatchEvent.onEnd s.id]) ∧
    (s.is_shut_down = false → s.allow_half_open = false →
      (cb.on_end s).is_closed = false →
      (dispatchSocketPoll cb recvs false true 0 s loop).2 =
        [DispatchEvent.onEnd s.id,
         DispatchEvent.onClose (cb.on_end s).id CloseCode.cleanShutdown]) := by
  refine ⟨?_, ?_, ?_⟩
  · intro hshut
    rw [dispatch_trace_eof_only]
    simp [eofPhase, us_socket_close, hopen, hshut]
  · intro hshut hhalf
    rw [dispatch_trace_eof_only]
    simp [eofPhase, us_poll_change, hopen, hshut, hhalf]
  · intro hshut hhalf hend
    rw [dispatch_trace_eof_only]
    simp [eofPhase, us_socket_close, hopen, hshut, hhalf, hend]

/-- A trivial callback table for fixtures: nothing is low-prio, callbacks
return their socket unchanged. -/
def cbPlain : Callbacks :=
  { is_low_prio := fun _ => false
    on_writable := fun s => (some s, false)
    on_data := fun s _ => some s
    on_fd := fun s _ => s
    on_end := fun s => s }

/-- A concrete open socket that has already been shut down. -/
def shutSocket : Socket :=
  { id := 9, is_closed := false, is_shut_down := true,
    allow_half_open := false, is_ipc := false, low_prio_state := 0,
    poll_events := LIBUS_SOCKET_READABLE, timeout := 255, long_timeout := 255 }

/-- A concrete loop-data fixture with no budget left. -/
def loopNoBudget : LoopData :=
  { last_write_failed := false, low_prio_budget := 0, low_prio_head := [],
    num_ready_polls := 1 }

/-- C7 (witness): dispatching an EOF for the already-shut-down `shutSocket`
closes it with `CLEAN_SHUTDOWN` and does not invoke `on_end`. -/
theorem eof_phase_behaviour_witness :
    (dispatchSocketPoll cbPlain [] false true 0 shutSocket loopNoBudget).2 =
      [DispatchEvent.onClose 9 CloseCode.cleanShutdown] :=
  (eof_phase_behaviour cbPlain [] shutSocket loopNoBudget (by decide)).1
    (by decide)

/-! ## Claim C2: what the low-priority deferral skips -/

/-- A callback table classifying every socket low-prio. -/
def cbLowPrio : Callbacks :=
  { is_low_prio := fun _ => true
    on_writable := fun s => (some s, false)
    on_data := fun s _ => some s
    on_fd := fun s _ => s
    on_end := fun s => s }

/-- A concrete open low-prio socket with READABLE and WRITABLE interest. -/
def lpSock : Socket :=
  { id := 7, is_closed := false, is_shut_down := false,
    allow_half_open := false, is_ipc := false, low_prio_state := 0,
    poll_events := LIBUS_SOCKET_READABLE ||| LIBUS_SOCKET_WRITABLE,
    timeout := 255, long_timeout := 255 }

/-- A loop-data fixture with the full budget. -/
def loopFullBudget : LoopData :=
  { last_write_failed := false, low_prio_budget := 5, low_prio_head := [],
    num_ready_polls := 1 }

/-- C2 (counterexample): a readable low-prio socket deferred for lack of
budget, with the EOF flag set on the same poll event, produces no `on_end`
and no close: the deferral's `break` leaves the whole switch case, so the
EOF phase does not execute.  With budget available, the very same dispatch
does run the EOF phase (`on_end` then a clean-shutdown close). -/
theorem deferral_drops_eof_phase :
    (dispatchSocketPoll cbLowPrio [] false true LIBUS_SOCKET_READABLE lpSock
        loopNoBudget).2 =
      [DispatchEvent.pollChange 7 LIBUS_SOCKET_WRITABLE,
       DispatchEvent.deferredToLowPrio 7] ∧
    ((dispatchSocketPoll cbLowPrio [] false true LIBUS_SOCKET_READABLE lpSock
        loopNoBudget).2.filter
      (fun e => match e with
        | DispatchEvent.onEnd _ => true
        | DispatchEvent.onClose _ _ => true
        | _ => false)) = [] ∧
    (dispatchSocketPoll cbLowPrio [] false true LIBUS_SOCKET_READABLE lpSock
        loopFullBudget).2 =
      [DispatchEvent.onEnd 7,
       DispatchEvent.onClose 7 CloseCode.cleanShutdown] := by
  refine ⟨by decide, by decide, by decide⟩

/-- C2 (amended): when a readable low-prio socket is deferred because the
budget is exhausted, the dispatch of that poll event ends at the deferral:
the poll mask is cut to WRITABLE-only, the socket is pushed onto the front
of the low-prio queue with `low_prio_state = 1`, and the remainder of the
dispatch — the rest of the readable phase, the EOF phase and the error
phase — is skipped even when the EOF or error flags are set. -/
theorem deferral_skips_remaining_phases (cb : Callbacks)
    (recvs : List RecvResult) (error eof : Bool) (events : Nat) (s : Socket)
    (loop : LoopData)
    (hw : events &&& LIBUS_SOCKET_WRITABLE = 0)
    (hr : events &&& LIBUS_SOCKET_READABLE ≠ 0)
    (hlp : cb.is_low_prio s = true)
    (hstate : s.low_prio_state ≠ 2)
    (hbudget : loop.low_prio_budget = 0) :
    (dispatchSocketPoll cb recvs error eof events s loop).2 =
      [DispatchEvent.pollChange s.id
          (s.poll_events &&& LIBUS_SOCKET_WRITABLE),
       DispatchEvent.deferredToLowPrio s.id] ∧
    (dispatchSocketPoll cb recvs error eof events s loop).1.low_prio_head =
      { s with poll_events := s.poll_events &&& LIBUS_SOCKET_WRITABLE,
               low_prio_state := 1 } :: loop.low_prio_head ∧
    (dispatchSocketPoll cb recvs error eof events s loop).1.low_prio_budget
      = 0 := by
  have hgate : ¬(events &&& LIBUS_SOCKET_WRITABLE ≠ 0 ∧ error = false) := by
    simp [hw]
  simp [dispatchSocketPoll, hgate, hr, readablePhase, hlp, hstate, hbudget,
    us_poll_change]

/-- C2 (amended, witness): the concrete deferral of `lpSock`. -/
theorem deferral_skips_remaining_phases_witness :
    (dispatchSocketPoll cbLowPrio [] false true LIBUS_SOCKET_READABLE lpSock
        loopNoBudget).1.low_prio_head =
      [{ lpSock with
          poll_events := lpSock.poll_events &&& LIBUS_SOCKET_WRITABLE,
          low_prio_state := 1 }] :=
  ((deferral_skips_remaining_phases cbLowPrio [] false true
      LIBUS_SOCKET_READABLE lpSock loopNoBudget (by decide) (by decide)
      (by decide) (by decide) (by decide)).2).1

/-! ## Claim C9: accept loop stops when the listen socket is closed -/

/-- C9: if `on_open` closes the listening socket, the accept loop terminates
immediately — no further accept call is made and no further `on_open` fires
for that readiness event; if `on_open` leaves it open, the loop accepts the
next pending connection. -/
theorem accept_loop_stops_on_listen_close
    (on_open : Socket → ListenSocket → ListenSocket) (listen : ListenSocket)
    (client_fd : Nat) (rest : List Nat) :
    ((on_open (initAcceptedSocket listen client_fd) listen).is_closed =
        true →
      acceptLoop on_open listen (client_fd :: rest) =
        ([AcceptEvent.accepted client_fd, AcceptEvent.onOpen client_fd],
         on_open (initAcceptedSocket listen client_fd) listen)) ∧
    ((on_open (initAcceptedSocket listen client_fd) listen).is_closed =
        false →
      (acceptLoop on_open listen (client_fd :: rest)).1 =
        [AcceptEvent.accepted client_fd, AcceptEvent.onOpen client_fd] ++
          (acceptLoop on_open
            (on_open (initAcceptedSocket listen client_fd) listen) rest).1) := by
  constructor
  · intro hclosed
    simp [acceptLoop, hclosed]
  · intro hopen
    simp [acceptLoop, hopen]

/-- An `on_open` handler that closes the listening socket. -/
def onOpenCloser : Socket → ListenSocket → ListenSocket :=
  fun _ listen => { listen with is_closed := true }

/-- A concrete open listening socket. -/
def listenFixture : ListenSocket :=
  { id := 2, is_closed := false, allow_half_open := false }

/-- C9 (witness): with two more connections pending, an `on_open` that
closes the listen socket ends the batch after the first accept. -/
theorem accept_loop_stops_on_listen_close_witness :
    acceptLoop onOpenCloser listenFixture [1, 2, 3] =
      ([AcceptEvent.accepted 1, AcceptEvent.onOpen 1],
       onOpenCloser (initAcceptedSocket listenFixture 1) listenFixture) :=
  (accept_loop_stops_on_listen_close onOpenCloser listenFixture 1
      [2, 3]).1 (by decide)

end USockets
